import Mathlib

/-!
Verification of the turtl core command dispatcher (`src/dispatch.rs`) and the
main-loop / configuration code (`src/main.rs`).

The embedding follows the Rust source function by function:

* JSON values (`jedi::Value`) become the inductive `Value`; `jedi::get` becomes
  `jget` (object field lookup / array indexing by the decimal keys the source
  actually uses, `"0"` .. `"4"`), with the typed extractions `asString`,
  `asStringList`, `asInt`.
* `TError` keeps the constructors used by the source (`MissingField`,
  `MissingCommand`, `BadValue`) plus `JSONErr`, which stands for the
  `From<jedi::JSONError> for TError` pass-through conversion (the `error`
  module itself is not part of the source sample).
* Collaborators that dispatch merely calls (login, save_model, search.find,
  message transmission, serde decoding of the concrete model types, ...) are
  an `Oracle` of fallible functions; every invocation of a *mutating*
  collaborator is logged as an `Effect`, so "no mutation was attempted" is
  `effects = []`.
* `RwLock::read().unwrap()` panics when the lock is poisoned; outcomes of
  `dispatch` are therefore three-valued (`ok` / `err` / `panicked`).
* The single-consumer job queue of `main.rs` (`start`'s loop together with
  `stop`) becomes a small labelled transition system in namespace `MainLoop`.
-/

/-- JSON values, mirroring `jedi::Value` (serde_json). Numbers are modelled as
integers, which covers every numeric use in the source (`limit: i32`). -/
inductive Value where
  | null
  | bool (b : Bool)
  | num (n : Int)
  | str (s : String)
  | arr (items : List Value)
  | obj (fields : List (String × Value))

/-- `jedi::obj()`: a fresh empty JSON object. -/
def jediObj : Value := Value.obj []

/-- Errors of the `jedi` JSON layer: a missing path element, a value present
but of the wrong shape for the requested type, or an unparseable document. -/
inductive JErr where
  | notFound
  | wrongType
  | parseFailed
deriving DecidableEq

/-- Rendering of a jedi error, used only inside formatted error messages
(the exact rendering is irrelevant to every property proved below). -/
def jerrStr : JErr → String
  | JErr.notFound => ("not found")
  | JErr.wrongType => ("wrong type")
  | JErr.parseFailed => ("parse failed")

/-- The decimal index keys `jedi::get` is called with on arrays in the source
(`"0"` .. `"4"`); every other key is treated as an object field name only,
exactly as in the source's call sites. -/
def keyIndex : String → Option Nat
  | "0" => some 0
  | "1" => some 1
  | "2" => some 2
  | "3" => some 3
  | "4" => some 4
  | _ => none

/-- One step of `jedi::get` path traversal: object field lookup, or array
indexing when the key is one of the decimal keys used by the source. -/
def jgetOne (key : String) : Value → Except JErr Value
  | Value.obj fields =>
      match fields.lookup key with
      | some v => Except.ok v
      | none => Except.error JErr.notFound
  | Value.arr items =>
      match keyIndex key with
      | some i =>
          match items.get? i with
          | some v => Except.ok v
          | none => Except.error JErr.notFound
      | none => Except.error JErr.notFound
  | _ => Except.error JErr.notFound

/-- `jedi::get(&path, &data)` without a typed conversion (target `Value`). -/
def jget : List String → Value → Except JErr Value
  | [], v => Except.ok v
  | k :: rest, v =>
      match jgetOne k v with
      | Except.ok v' => jget rest v'
      | Except.error e => Except.error e

/-- serde extraction of a `String` from a JSON value. -/
def asString : Value → Except JErr String
  | Value.str s => Except.ok s
  | _ => Except.error JErr.wrongType

/-- serde extraction of a `Vec<String>` from a JSON value. -/
def asStringList : Value → Except JErr (List String)
  | Value.arr items =>
      items.foldr
        (fun it acc =>
          match asString it, acc with
          | Except.ok s, Except.ok rest => Except.ok (s :: rest)
          | Except.error e, _ => Except.error e
          | _, Except.error e => Except.error e)
        (Except.ok [])
  | _ => Except.error JErr.wrongType

/-- serde extraction of an `i32` from a JSON value. -/
def asInt : Value → Except JErr Int
  | Value.num n => Except.ok n
  | _ => Except.error JErr.wrongType

/-- `jedi::get::<String>(&path, &data)`. -/
def jgetString (path : List String) (v : Value) : Except JErr String :=
  match jget path v with
  | Except.ok x => asString x
  | Except.error e => Except.error e

/-- `jedi::get::<Vec<String>>(&path, &data)`. -/
def jgetStringList (path : List String) (v : Value) : Except JErr (List String) :=
  match jget path v with
  | Except.ok x => asStringList x
  | Except.error e => Except.error e

/-- `jedi::get::<i32>(&path, &data)`. -/
def jgetInt (path : List String) (v : Value) : Except JErr Int :=
  match jget path v with
  | Except.ok x => asInt x
  | Except.error e => Except.error e

/-- The `TError` constructors used by `dispatch.rs` / `main.rs`. `JSONErr`
models the `From<jedi::JSONError>` conversion applied by the `?` operator. -/
inductive TError where
  | Msg (s : String)
  | MissingField (s : String)
  | MissingCommand (s : String)
  | BadValue (s : String)
  | JSONErr (e : JErr)

/-- `SyncAction` as used by the source: the `match action` in
`profile:sync:model` has exactly the arms `Add | Edit` and `Delete` with no
wildcard, so these are all the variants. -/
inductive SyncAction where
  | Add
  | Edit
  | Delete
deriving DecidableEq

/-- Modelled from the spec: the `models::sync_record` module is not part of
the source sample; the spec gives `type: {User, Space, Board, Note, Invite,
File, ...}`. The trailing `...` (at least one further variant with no
direct-sync form) is represented by `FileIncoming`. -/
inductive SyncType where
  | User
  | Space
  | Board
  | Note
  | Invite
  | File
  | FileIncoming
deriving DecidableEq

/-- The `{:?}` (Debug) rendering of a `SyncType`, used in error messages. -/
def syncTypeName : SyncType → String
  | SyncType.User => ("User")
  | SyncType.Space => ("Space")
  | SyncType.Board => ("Board")
  | SyncType.Note => ("Note")
  | SyncType.Invite => ("Invite")
  | SyncType.File => ("File")
  | SyncType.FileIncoming => ("FileIncoming")

/-- Modelled from the spec: serde decoding of `SyncAction` (the enum's serde
names are not in the source sample; lowercase variant names are used). -/
def decodeSyncAction : Value → Except JErr SyncAction
  | Value.str ("add") => Except.ok SyncAction.Add
  | Value.str ("edit") => Except.ok SyncAction.Edit
  | Value.str ("delete") => Except.ok SyncAction.Delete
  | _ => Except.error JErr.wrongType

/-- Modelled from the spec: serde decoding of `SyncType` in the same style. -/
def decodeSyncType : Value → Except JErr SyncType
  | Value.str ("user") => Except.ok SyncType.User
  | Value.str ("space") => Except.ok SyncType.Space
  | Value.str ("board") => Except.ok SyncType.Board
  | Value.str ("note") => Except.ok SyncType.Note
  | Value.str ("invite") => Except.ok SyncType.Invite
  | Value.str ("file") => Except.ok SyncType.File
  | Value.str ("file:incoming") => Except.ok SyncType.FileIncoming
  | _ => Except.error JErr.wrongType

/-- `jedi::get::<SyncAction>(&path, &data)`. -/
def jgetSyncAction (path : List String) (v : Value) : Except JErr SyncAction :=
  match jget path v with
  | Except.ok x => decodeSyncAction x
  | Except.error e => Except.error e

/-- `jedi::get::<SyncType>(&path, &data)`. -/
def jgetSyncType (path : List String) (v : Value) : Except JErr SyncType :=
  match jget path v with
  | Except.ok x => decodeSyncType x
  | Except.error e => Except.error e

/-- The coordinator state (`Turtl`) as seen by `dispatch`: the profile
snapshot behind its read-write lock, the optional search handle behind its
read-write lock, and for each lock whether it is poisoned (a poisoned lock
makes `.read().unwrap()` panic). -/
structure Turtl where
  profileSpaces : Value
  profileBoards : Value
  profilePoisoned : Bool
  searchInit : Bool
  searchPoisoned : Bool

/-- A mutating collaborator invocation attempted by `dispatch`, in order.
Read-only collaborator calls (`load_notes`, `search.find`, the frozen/pending
queries) are not mutations and are not logged. -/
inductive Effect where
  | login (u p : String)
  | join (u p : String)
  | logout
  | deleteAccount
  | wipeUserData
  | wipeAppData
  | syncStart
  | syncPause
  | syncResume
  | syncShutdown (restart : Bool)
  | deleteSyncItem (id : String)
  | kickFrozenSync (id : String)
  | configSet (endpoint : String)
  | triggerShutdown
  | saveModel (a : SyncAction) (t : SyncType) (m : Value)
  | deleteModel (t : SyncType) (id : String)
  | sendFeedback (f : Value)

/-- The collaborators `dispatch` calls, as fallible functions. Calls whose
Rust form is "call returning `TResult<T>` then `jedi::to_val(&x)?`" are folded
into a single `Except TError Value` result. The serde decoders of the opaque
model payload types (`User`/`Space`/..., `Query`, `Feedback`) are collaborator
functions as well, since those types are external to the dispatcher. -/
structure Oracle where
  login : String → String → Except TError Unit
  join : String → String → Except TError Unit
  logout : Except TError Unit
  deleteAccount : Except TError Unit
  wipeUserData : Except TError Unit
  wipeAppData : Except TError Unit
  syncStart : Except TError Unit
  syncShutdown : Bool → Except TError Unit
  deleteSyncItem : String → Except TError Unit
  getAllFrozen : Except TError Value
  getAllPending : Except TError Value
  kickFrozenSync : String → Except TError Unit
  configSet : String → Except TError Unit
  decodeModel : SyncType → Value → Except TError Value
  saveModel : SyncAction → SyncType → Value → Except TError Value
  deleteModel : SyncType → String → Except TError Unit
  decodeQuery : Value → Except TError Value
  decodeFeedback : Value → Except TError Value
  loadNotes : List String → Except TError Value
  searchFind : Value → Except TError (List String)
  tagsByFrequency : String → List String → Int → Except TError Value
  sendFeedback : Value → Except TError Unit
  msgSuccess : String → Value → Except TError Unit
  msgError : String → TError → Except TError Unit

/-- Outcome of one `dispatch` call: a success value, a `TError`, or a panic
(the only panics reachable in `dispatch` are the `.unwrap()`s on the two
read-write locks). -/
inductive DOutcome where
  | ok (v : Value)
  | err (e : TError)
  | panicked

/-- Lift a panic-free handler result (Rust `TResult<Value>`) to `DOutcome`. -/
def liftE : Except TError Value × List Effect → DOutcome × List Effect
  | (Except.ok v, l) => (DOutcome.ok v, l)
  | (Except.error e, l) => (DOutcome.err e, l)

/-- `"user:login"`: decode username (pos 2) and password (pos 3), call
`turtl.login`, return the empty object. -/
def handleUserLogin (o : Oracle) (data : Value) : Except TError Value × List Effect :=
  match jgetString [("2")] data with
  | Except.error e => (Except.error (TError.JSONErr e), [])
  | Except.ok username =>
      match jgetString [("3")] data with
      | Except.error e => (Except.error (TError.JSONErr e), [])
      | Except.ok password =>
          match o.login username password with
          | Except.ok _ => (Except.ok jediObj, [Effect.login username password])
          | Except.error e => (Except.error e, [Effect.login username password])

/-- `"user:join"`: same shape as `user:login` with `turtl.join`. -/
def handleUserJoin (o : Oracle) (data : Value) : Except TError Value × List Effect :=
  match jgetString [("2")] data with
  | Except.error e => (Except.error (TError.JSONErr e), [])
  | Except.ok username =>
      match jgetString [("3")] data with
      | Except.error e => (Except.error (TError.JSONErr e), [])
      | Except.ok password =>
          match o.join username password with
          | Except.ok _ => (Except.ok jediObj, [Effect.join username password])
          | Except.error e => (Except.error e, [Effect.join username password])

/-- `"user:logout"`: `turtl.logout()?`, a one-second sleep (irrelevant here),
then the empty object. -/
def handleUserLogout (o : Oracle) : Except TError Value × List Effect :=
  match o.logout with
  | Except.ok _ => (Except.ok jediObj, [Effect.logout])
  | Except.error e => (Except.error e, [Effect.logout])

/-- `"user:delete-account"`. -/
def handleDeleteAccount (o : Oracle) : Except TError Value × List Effect :=
  match o.deleteAccount with
  | Except.ok _ => (Except.ok jediObj, [Effect.deleteAccount])
  | Except.error e => (Except.error e, [Effect.deleteAccount])

/-- `"app:wipe-user-data"`. -/
def handleWipeUserData (o : Oracle) : Except TError Value × List Effect :=
  match o.wipeUserData with
  | Except.ok _ => (Except.ok jediObj, [Effect.wipeUserData])
  | Except.error e => (Except.error e, [Effect.wipeUserData])

/-- `"app:wipe-app-data"`. -/
def handleWipeAppData (o : Oracle) : Except TError Value × List Effect :=
  match o.wipeAppData with
  | Except.ok _ => (Except.ok jediObj, [Effect.wipeAppData])
  | Except.error e => (Except.error e, [Effect.wipeAppData])

/-- `"sync:start"`. -/
def handleSyncStartCmd (o : Oracle) : Except TError Value × List Effect :=
  match o.syncStart with
  | Except.ok _ => (Except.ok jediObj, [Effect.syncStart])
  | Except.error e => (Except.error e, [Effect.syncStart])

/-- `"sync:pause"`: `turtl.sync_pause()` is infallible. -/
def handleSyncPause : Except TError Value × List Effect :=
  (Except.ok jediObj, [Effect.syncPause])

/-- `"sync:resume"`: `turtl.sync_resume()` is infallible. -/
def handleSyncResume : Except TError Value × List Effect :=
  (Except.ok jediObj, [Effect.syncResume])

/-- `"sync:shutdown"`: `turtl.sync_shutdown(true)?`. -/
def handleSyncShutdownCmd (o : Oracle) : Except TError Value × List Effect :=
  match o.syncShutdown true with
  | Except.ok _ => (Except.ok jediObj, [Effect.syncShutdown true])
  | Except.error e => (Except.error e, [Effect.syncShutdown true])

/-- `"sync:delete-item"`: decode the sync id (pos 2), delete it. -/
def handleSyncDeleteItem (o : Oracle) (data : Value) : Except TError Value × List Effect :=
  match jgetString [("2")] data with
  | Except.error e => (Except.error (TError.JSONErr e), [])
  | Except.ok syncId =>
      match o.deleteSyncItem syncId with
      | Except.ok _ => (Except.ok jediObj, [Effect.deleteSyncItem syncId])
      | Except.error e => (Except.error e, [Effect.deleteSyncItem syncId])

/-- `"sync:get-frozen"`: read-only query of the frozen set. -/
def handleSyncGetFrozen (o : Oracle) : Except TError Value × List Effect :=
  match o.getAllFrozen with
  | Except.ok v => (Except.ok v, [])
  | Except.error e => (Except.error e, [])

/-- `"sync:get-pending"`: read-only query of the pending set. -/
def handleSyncGetPending (o : Oracle) : Except TError Value × List Effect :=
  match o.getAllPending with
  | Except.ok v => (Except.ok v, [])
  | Except.error e => (Except.error e, [])

/-- `"sync:unfreeze-item"`: decode the sync id (pos 2), kick it. -/
def handleSyncUnfreeze (o : Oracle) (data : Value) : Except TError Value × List Effect :=
  match jgetString [("2")] data with
  | Except.error e => (Except.error (TError.JSONErr e), [])
  | Except.ok syncId =>
      match o.kickFrozenSync syncId with
      | Except.ok _ => (Except.ok jediObj, [Effect.kickFrozenSync syncId])
      | Except.error e => (Except.error e, [Effect.kickFrozenSync syncId])

/-- `"app:api:set-endpoint"`: decode the endpoint (pos 2), store it. -/
def handleSetEndpoint (o : Oracle) (data : Value) : Except TError Value × List Effect :=
  match jgetString [("2")] data with
  | Except.error e => (Except.error (TError.JSONErr e), [])
  | Except.ok endpoint =>
      match o.configSet endpoint with
      | Except.ok _ => (Except.ok jediObj, [Effect.configSet endpoint])
      | Except.error e => (Except.error e, [Effect.configSet endpoint])

/-- `"app:shutdown"`: `turtl.sync_shutdown(false)?`, then trigger the
`app:shutdown` event. -/
def handleAppShutdown (o : Oracle) : Except TError Value × List Effect :=
  match o.syncShutdown false with
  | Except.ok _ => (Except.ok jediObj, [Effect.syncShutdown false, Effect.triggerShutdown])
  | Except.error e => (Except.error e, [Effect.syncShutdown false])

/-- `"profile:load"`: `turtl.profile.read().unwrap()` (panic when poisoned),
then the `{spaces, boards}` object; the search subsystem is not consulted. -/
def handleProfileLoad (t : Turtl) : DOutcome × List Effect :=
  if t.profilePoisoned then (DOutcome.panicked, [])
  else
    (DOutcome.ok (Value.obj [(("spaces"), t.profileSpaces), (("boards"), t.profileBoards)]), [])

/-- The Add/Edit leg of `"profile:sync:model"` for one of the five concrete
model types: decode position 4 into the model, call `save_model`. -/
def directSave (o : Oracle) (action : SyncAction) (ty : SyncType) (data : Value) :
    Except TError Value × List Effect :=
  match jget [("4")] data with
  | Except.error e => (Except.error (TError.JSONErr e), [])
  | Except.ok raw =>
      match o.decodeModel ty raw with
      | Except.error e => (Except.error e, [])
      | Except.ok m =>
          match o.saveModel action ty m with
          | Except.ok v => (Except.ok v, [Effect.saveModel action ty m])
          | Except.error e => (Except.error e, [Effect.saveModel action ty m])

/-- The Delete leg of `"profile:sync:model"` for one of the five concrete
model types: call `delete_model` with the already-decoded id. -/
def directDelete (o : Oracle) (ty : SyncType) (id : String) :
    Except TError Value × List Effect :=
  match o.deleteModel ty id with
  | Except.ok _ => (Except.ok jediObj, [Effect.deleteModel ty id])
  | Except.error e => (Except.error e, [Effect.deleteModel ty id])

/-- `"profile:sync:model"`: decode the action (pos 2, error wrapped into
`BadValue`), the type (pos 3, error passed through), then route: Add/Edit
saves the decoded model for the five concrete types, is `Null` for `File`,
and is a `BadValue` naming command and type otherwise; Delete first decodes
`id` from position 4, then deletes for the five concrete types, is the empty
object for `File`, and is the same `BadValue` otherwise. -/
def handleSyncModel (o : Oracle) (data : Value) : Except TError Value × List Effect :=
  match jgetSyncAction [("2")] data with
  | Except.error e =>
      (Except.error (TError.BadValue (("dispatch: profile:sync:model -- bad sync action: ") ++ jerrStr e)), [])
  | Except.ok action =>
      match jgetSyncType [("3")] data with
      | Except.error e => (Except.error (TError.JSONErr e), [])
      | Except.ok ty =>
          match action with
          | SyncAction.Add | SyncAction.Edit =>
              match ty with
              | SyncType.User => directSave o action SyncType.User data
              | SyncType.Space => directSave o action SyncType.Space data
              | SyncType.Board => directSave o action SyncType.Board data
              | SyncType.Note => directSave o action SyncType.Note data
              | SyncType.Invite => directSave o action SyncType.Invite data
              | SyncType.File => (Except.ok Value.null, [])
              | SyncType.FileIncoming =>
                  (Except.error (TError.BadValue (("dispatch: profile:sync:model -- cannot direct sync an item of type ") ++ syncTypeName SyncType.FileIncoming)), [])
          | SyncAction.Delete =>
              match jgetString [("4"), ("id")] data with
              | Except.error e => (Except.error (TError.JSONErr e), [])
              | Except.ok id =>
                  match ty with
                  | SyncType.User => directDelete o SyncType.User id
                  | SyncType.Space => directDelete o SyncType.Space id
                  | SyncType.Board => directDelete o SyncType.Board id
                  | SyncType.Note => directDelete o SyncType.Note id
                  | SyncType.Invite => directDelete o SyncType.Invite id
                  | SyncType.File => (Except.ok jediObj, [])
                  | SyncType.FileIncoming =>
                      (Except.error (TError.BadValue (("dispatch: profile:sync:model -- cannot direct sync an item of type ") ++ syncTypeName SyncType.FileIncoming)), [])

/-- `"profile:get-notes"`: decode the note id list (pos 2), load the notes. -/
def handleGetNotes (o : Oracle) (data : Value) : Except TError Value × List Effect :=
  match jgetStringList [("2")] data with
  | Except.error e => (Except.error (TError.JSONErr e), [])
  | Except.ok noteIds =>
      match o.loadNotes noteIds with
      | Except.ok v => (Except.ok v, [])
      | Except.error e => (Except.error e, [])

/-- `"profile:find-notes"`: decode the query (pos 2), take the search lock
(`.read().unwrap()`, panic when poisoned), fail with `MissingField` when the
search handle is `None`, otherwise find matching ids and load the notes. -/
def handleFindNotes (o : Oracle) (t : Turtl) (data : Value) : DOutcome × List Effect :=
  match jget [("2")] data with
  | Except.error e => (DOutcome.err (TError.JSONErr e), [])
  | Except.ok qraw =>
      match o.decodeQuery qraw with
      | Except.error e => (DOutcome.err e, [])
      | Except.ok qry =>
          if t.searchPoisoned then (DOutcome.panicked, [])
          else if t.searchInit then
            match o.searchFind qry with
            | Except.error e => (DOutcome.err e, [])
            | Except.ok noteIds =>
                match o.loadNotes noteIds with
                | Except.ok v => (DOutcome.ok v, [])
                | Except.error e => (DOutcome.err e, [])
          else
            (DOutcome.err (TError.MissingField (("dispatch: profile:find-notes -- turtl is missing `search` object"))), [])

/-- `"profile:get-tags"`: decode space id (pos 2), board ids (pos 3) and
limit (pos 4), take the search lock (panic when poisoned), fail with
`MissingField` when the search handle is `None`, otherwise query tags. -/
def handleGetTags (o : Oracle) (t : Turtl) (data : Value) : DOutcome × List Effect :=
  match jgetString [("2")] data with
  | Except.error e => (DOutcome.err (TError.JSONErr e), [])
  | Except.ok spaceId =>
      match jgetStringList [("3")] data with
      | Except.error e => (DOutcome.err (TError.JSONErr e), [])
      | Except.ok boards =>
          match jgetInt [("4")] data with
          | Except.error e => (DOutcome.err (TError.JSONErr e), [])
          | Except.ok limit =>
              if t.searchPoisoned then (DOutcome.panicked, [])
              else if t.searchInit then
                match o.tagsByFrequency spaceId boards limit with
                | Except.ok v => (DOutcome.ok v, [])
                | Except.error e => (DOutcome.err e, [])
              else
                (DOutcome.err (TError.MissingField (("dispatch: profile:get-tags -- turtl is missing `search` object"))), [])

/-- `"feedback:send"`: decode the feedback object (pos 2), send it. -/
def handleFeedbackSend (o : Oracle) (data : Value) : Except TError Value × List Effect :=
  match jget [("2")] data with
  | Except.error e => (Except.error (TError.JSONErr e), [])
  | Except.ok fraw =>
      match o.decodeFeedback fraw with
      | Except.error e => (Except.error e, [])
      | Except.ok f =>
          match o.sendFeedback f with
          | Except.ok _ => (Except.ok jediObj, [Effect.sendFeedback f])
          | Except.error e => (Except.error e, [Effect.sendFeedback f])

/-- `"ping"`: log, then the literal string `"pong"`. -/
def handlePing : Except TError Value × List Effect :=
  (Except.ok (Value.str ("pong")), [])

/-- `dispatch(cmd, turtl, data)`: the fixed command table of `dispatch.rs`,
in source order, with the default arm `Err(TError::MissingCommand(cmd))`. -/
def dispatch (o : Oracle) (t : Turtl) (cmd : String) (data : Value) : DOutcome × List Effect :=
  match cmd with
  | "user:login" => liftE (handleUserLogin o data)
  | "user:join" => liftE (handleUserJoin o data)
  | "user:logout" => liftE (handleUserLogout o)
  | "user:delete-account" => liftE (handleDeleteAccount o)
  | "app:wipe-user-data" => liftE (handleWipeUserData o)
  | "app:wipe-app-data" => liftE (handleWipeAppData o)
  | "sync:start" => liftE (handleSyncStartCmd o)
  | "sync:pause" => liftE handleSyncPause
  | "sync:resume" => liftE handleSyncResume
  | "sync:shutdown" => liftE (handleSyncShutdownCmd o)
  | "sync:delete-item" => liftE (handleSyncDeleteItem o data)
  | "sync:get-frozen" => liftE (handleSyncGetFrozen o)
  | "sync:get-pending" => liftE (handleSyncGetPending o)
  | "sync:unfreeze-item" => liftE (handleSyncUnfreeze o data)
  | "app:api:set-endpoint" => liftE (handleSetEndpoint o data)
  | "app:shutdown" => liftE (handleAppShutdown o)
  | "profile:load" => handleProfileLoad t
  | "profile:sync:model" => liftE (handleSyncModel o data)
  | "profile:get-notes" => liftE (handleGetNotes o data)
  | "profile:find-notes" => handleFindNotes o t data
  | "profile:get-tags" => handleGetTags o t data
  | "feedback:send" => liftE (handleFeedbackSend o data)
  | "ping" => liftE handlePing
  | _ => (DOutcome.err (TError.MissingCommand cmd), [])

/-- The command strings of the fixed dispatch table, in source order. -/
def commandTable : List String :=
  [("user:login"), ("user:join"), ("user:logout"), ("user:delete-account"),
   ("app:wipe-user-data"), ("app:wipe-app-data"), ("sync:start"), ("sync:pause"),
   ("sync:resume"), ("sync:shutdown"), ("sync:delete-item"), ("sync:get-frozen"),
   ("sync:get-pending"), ("sync:unfreeze-item"), ("app:api:set-endpoint"),
   ("app:shutdown"), ("profile:load"), ("profile:sync:model"), ("profile:get-notes"),
   ("profile:find-notes"), ("profile:get-tags"), ("feedback:send"), ("ping")]

/-- One response-transmission attempt made by `process` over the messaging
collaborator, addressed to a request id. -/
inductive Attempt where
  | success (mid : String) (v : Value)
  | failure (mid : String) (e : TError)

/-- The request id an attempt is addressed to. -/
def attemptMid : Attempt → String
  | Attempt.success mid _ => mid
  | Attempt.failure mid _ => mid

/-- Outcome of one `process` call (`TResult<()>`, plus the panic case that a
poisoned lock inside `dispatch` would propagate). -/
inductive POutcome where
  | ok
  | err (e : TError)
  | panicked

/-- `process(turtl, msg)`: parse the envelope (`none` models a
`jedi::parse` failure), extract the request id (pos 0) and the command
(pos 1) — each missing extraction returns its `MissingField` error with no
response attempted — then dispatch and convert the result into exactly one
response attempt addressed to the request id; a transmission failure is
logged and swallowed, so the function returns `Ok` either way. -/
def process (o : Oracle) (t : Turtl) (msg : Option Value) : POutcome × List Attempt :=
  match msg with
  | none => (POutcome.err (TError.JSONErr JErr.parseFailed), [])
  | some data =>
      match jgetString [("0")] data with
      | Except.error _ => (POutcome.err (TError.MissingField (("missing mid (0)"))), [])
      | Except.ok mid =>
          match jgetString [("1")] data with
          | Except.error _ => (POutcome.err (TError.MissingField (("missing cmd (1)"))), [])
          | Except.ok cmd =>
              match dispatch o t cmd data with
              | (DOutcome.ok v, _) =>
                  match o.msgSuccess mid v with
                  | Except.ok _ => (POutcome.ok, [Attempt.success mid v])
                  | Except.error _ => (POutcome.ok, [Attempt.success mid v])
              | (DOutcome.err e, _) =>
                  match o.msgError mid e with
                  | Except.ok _ => (POutcome.ok, [Attempt.failure mid e])
                  | Except.error _ => (POutcome.ok, [Attempt.failure mid e])
              | (DOutcome.panicked, _) => (POutcome.panicked, [])

/-- The `Config` struct of `main.rs`. -/
structure Config where
  data_folder : String
  dumpy_schema : Value
  api_endpoint : String

/-- `process_config(config_str)` from `main.rs`. The external pieces are
parameters: `stored` is the result of `config::get(&["api", "endpoint"])`
(the global config module is not part of the dispatcher/main sample), and the
input is the result of `jedi::parse(&config_str)` (`none` = parse failure,
which the source maps to `jedi::obj()`). Each field independently falls back
to its default when its own lookup fails. -/
def process_config (stored : Except TError String) (parsed : Option Value) : Config :=
  let runtime_config : Value :=
    match parsed with
    | some x => x
    | none => jediObj
  let data_folder : String :=
    match jgetString [("data_folder")] runtime_config with
    | Except.ok x => x
    | Except.error _ => ("/tmp/turtl.sql")
  let dumpy_schema : Value :=
    match jget [("schema")] runtime_config with
    | Except.ok x => x
    | Except.error _ => jediObj
  let api_endpoint : String :=
    match jgetString [("api"), ("endpoint")] runtime_config with
    | Except.ok x => x
    | Except.error _ =>
        match stored with
        | Except.ok x => x
        | Except.error _ => ("https://api.turtlapp.com/v2")
  { data_folder := data_folder, dumpy_schema := dumpy_schema, api_endpoint := api_endpoint }

namespace MainLoop

/-- Where the single consumer thread of `start`'s loop is:
at the `while (*RUN).running()` check (`loopTop`), past a true check and
inside the blocking `queue.pop()` (`popping`), about to run a popped job
(`execing`), or past a false check and out of the loop (`done`). -/
inductive Phase where
  | loopTop
  | popping
  | execing (j : Nat)
  | done
deriving DecidableEq

/-- State of the job pipeline: the FIFO queue contents (jobs are identified
by numbers), the `RUN` flag, the consumer's phase, and the jobs executed so
far in order. -/
structure LState where
  queue : List Nat
  run : Bool
  phase : Phase
  executed : List Nat

/-- Interleaved small-step semantics of `main.rs`'s loop plus its producers:
any thread may `push` at any time; `stop` is the two separate steps
`stopSet` (`(*RUN).set(false)`) and a `push` of the no-op job; the consumer
checks the flag at the top of each iteration, pops only after a true check,
and records a job in `executed` when it runs it. -/
inductive Step : LState → LState → Prop where
  | push (s : LState) (j : Nat) :
      Step s { s with queue := s.queue ++ [j] }
  | stopSet (s : LState) :
      Step s { s with run := false }
  | checkTrue (s : LState) :
      s.phase = Phase.loopTop → s.run = true →
      Step s { s with phase := Phase.popping }
  | checkFalse (s : LState) :
      s.phase = Phase.loopTop → s.run = false →
      Step s { s with phase := Phase.done }
  | pop (s : LState) (j : Nat) (q : List Nat) :
      s.phase = Phase.popping → s.queue = j :: q →
      Step s { s with queue := q, phase := Phase.execing j }
  | exec (s : LState) (j : Nat) :
      s.phase = Phase.execing j →
      Step s { s with phase := Phase.loopTop, executed := s.executed ++ [j] }

/-- Reflexive-transitive closure of `Step`. -/
inductive Steps : LState → LState → Prop where
  | refl (s : LState) : Steps s s
  | tail {s t u : LState} (hst : Steps s t) (htu : Step t u) : Steps s u

/-- How many more jobs the consumer can still execute once the flag is
false, as a function of its phase: one when a pop is already committed or a
job is already in hand, none otherwise. -/
def budget : Phase → Nat
  | Phase.loopTop => 0
  | Phase.popping => 1
  | Phase.execing _ => 1
  | Phase.done => 0

end MainLoop

/-- A concrete collaborator assignment used to instantiate theorems: every
call succeeds with a trivial result, and the opaque decoders accept any
payload unchanged. -/
def defaultOracle : Oracle where
  login := fun _ _ => Except.ok ()
  join := fun _ _ => Except.ok ()
  logout := Except.ok ()
  deleteAccount := Except.ok ()
  wipeUserData := Except.ok ()
  wipeAppData := Except.ok ()
  syncStart := Except.ok ()
  syncShutdown := fun _ => Except.ok ()
  deleteSyncItem := fun _ => Except.ok ()
  getAllFrozen := Except.ok (Value.arr [])
  getAllPending := Except.ok (Value.arr [])
  kickFrozenSync := fun _ => Except.ok ()
  configSet := fun _ => Except.ok ()
  decodeModel := fun _ v => Except.ok v
  saveModel := fun _ _ _ => Except.ok Value.null
  deleteModel := fun _ _ => Except.ok ()
  decodeQuery := fun v => Except.ok v
  decodeFeedback := fun v => Except.ok v
  loadNotes := fun _ => Except.ok (Value.arr [])
  searchFind := fun _ => Except.ok []
  tagsByFrequency := fun _ _ _ => Except.ok (Value.arr [])
  sendFeedback := fun _ => Except.ok ()
  msgSuccess := fun _ _ => Except.ok ()
  msgError := fun _ _ => Except.ok ()

/-- A concrete coordinator state: healthy locks, search not initialized. -/
def turtl0 : Turtl where
  profileSpaces := Value.arr []
  profileBoards := Value.arr []
  profilePoisoned := false
  searchInit := false
  searchPoisoned := false

/-- A concrete coordinator state whose profile lock is poisoned. -/
def turtlPoisoned : Turtl where
  profileSpaces := Value.arr []
  profileBoards := Value.arr []
  profilePoisoned := true
  searchInit := false
  searchPoisoned := false

/-- A concrete coordinator state whose search lock is poisoned. -/
def turtlSearchPoisoned : Turtl where
  profileSpaces := Value.arr []
  profileBoards := Value.arr []
  profilePoisoned := false
  searchInit := true
  searchPoisoned := true

theorem liftE_fst_ne_panicked (p : Except TError Value × List Effect) :
    (liftE p).1 ≠ DOutcome.panicked := by
  rcases p with ⟨r, l⟩
  cases r <;> simp [liftE]

theorem handleProfileLoad_no_panic (t : Turtl) (h : t.profilePoisoned = false) :
    (handleProfileLoad t).1 ≠ DOutcome.panicked := by
  simp [handleProfileLoad, h]

theorem handleFindNotes_no_panic (o : Oracle) (t : Turtl) (data : Value)
    (h : t.searchPoisoned = false) :
    (handleFindNotes o t data).1 ≠ DOutcome.panicked := by
  unfold handleFindNotes
  repeat' split <;> try simp_all

theorem handleGetTags_no_panic (o : Oracle) (t : Turtl) (data : Value)
    (h : t.searchPoisoned = false) :
    (handleGetTags o t data).1 ≠ DOutcome.panicked := by
  unfold handleGetTags
  repeat' split <;> try simp_all

/-- With both locks healthy, no arm of `dispatch` can reach a panic. -/
theorem dispatch_no_panic (o : Oracle) (t : Turtl) (cmd : String) (data : Value)
    (hp : t.profilePoisoned = false) (hs : t.searchPoisoned = false) :
    (dispatch o t cmd data).1 ≠ DOutcome.panicked := by
  unfold dispatch
  split
  all_goals
    first
      | exact liftE_fst_ne_panicked _
      | exact handleProfileLoad_no_panic _ hp
      | exact handleFindNotes_no_panic _ _ _ hs
      | exact handleGetTags_no_panic _ _ _ hs
      | simp

namespace MainLoop

theorem step_run_false {s t : LState} (h : Step s t) (hr : s.run = false) :
    t.run = false := by
  cases h <;> simp_all

theorem steps_run_false {s t : LState} (h : Steps s t) (hr : s.run = false) :
    t.run = false := by
  induction h with
  | refl => exact hr
  | tail _ htu ih => exact step_run_false htu ih

theorem step_done {s t : LState} (h : Step s t) (hd : s.phase = Phase.done) :
    t.phase = Phase.done ∧ t.executed = s.executed := by
  cases h <;> simp_all

theorem steps_done {s t : LState} (h : Steps s t) (hd : s.phase = Phase.done) :
    t.phase = Phase.done ∧ t.executed = s.executed := by
  induction h with
  | refl => exact ⟨hd, rfl⟩
  | tail _ htu ih =>
      obtain ⟨hph, hex⟩ := step_done htu ih.1
      exact ⟨hph, hex.trans ih.2⟩

theorem budget_le_one (p : Phase) : budget p ≤ 1 := by
  cases p <;> simp [budget]

theorem step_budget {s t : LState} (h : Step s t) (hr : s.run = false) :
    t.executed.length + budget t.phase ≤ s.executed.length + budget s.phase := by
  cases h <;> simp_all [budget]

theorem steps_budget {s t : LState} (h : Steps s t) (hr : s.run = false) :
    t.executed.length + budget t.phase ≤ s.executed.length + budget s.phase := by
  induction h with
  | refl => exact le_refl _
  | tail hst htu ih =>
      exact (step_budget htu (steps_run_false hst hr)).trans ih

end MainLoop

/-- Claim C6: for every envelope whose position 0 (request id) or position 1
(command) is missing or not a string, `process` attempts no outbound response
(success or error), does not panic, and returns the corresponding
`MissingField` error value. -/
theorem process_malformed_envelope_no_response :
    (∀ (o : Oracle) (t : Turtl) (data : Value) (e0 : JErr),
      jgetString [("0")] data = Except.error e0 →
      process o t (some data) = (POutcome.err (TError.MissingField (("missing mid (0)"))), [])) ∧
    (∀ (o : Oracle) (t : Turtl) (data : Value) (mid : String) (e1 : JErr),
      jgetString [("0")] data = Except.ok mid →
      jgetString [("1")] data = Except.error e1 →
      process o t (some data) = (POutcome.err (TError.MissingField (("missing cmd (1)"))), [])) := by
  constructor
  · intro o t data e0 h0
    simp [process, h0]
  · intro o t data mid e1 h0 h1
    simp [process, h0, h1]

/-- Witness for C6: the envelope `[3, "ping"]` has a non-string position 0,
and the envelope `["abc"]` has no position 1; both make `process` return the
matching `MissingField` error with no response attempt. -/
theorem process_malformed_envelope_no_response_witness :
    process defaultOracle turtl0 (some (Value.arr [Value.num 3, Value.str ("ping")])) =
      (POutcome.err (TError.MissingField (("missing mid (0)"))), []) ∧
    process defaultOracle turtl0 (some (Value.arr [Value.str ("xyz")])) =
      (POutcome.err (TError.MissingField (("missing cmd (1)"))), []) :=
  ⟨process_malformed_envelope_no_response.1 defaultOracle turtl0 _ JErr.wrongType rfl,
   process_malformed_envelope_no_response.2 defaultOracle turtl0 _ ("xyz") JErr.notFound rfl rfl⟩

/-- Claim C7: for every command string not in the fixed dispatch table,
`dispatch` returns `TError::MissingCommand` (the "unknown command" kind)
carrying exactly that command string, and attempts no mutation. -/
theorem dispatch_unknown_command (o : Oracle) (t : Turtl) (data : Value)
    (cmd : String) (h : cmd ∉ commandTable) :
    dispatch o t cmd data = (DOutcome.err (TError.MissingCommand cmd), []) := by
  unfold dispatch
  split <;> simp_all [commandTable]

/-- Witness for C7: `"bogus"` is not in the table and comes back inside the
`MissingCommand` error unchanged. -/
theorem dispatch_unknown_command_witness :
    dispatch defaultOracle turtl0 ("bogus") Value.null =
      (DOutcome.err (TError.MissingCommand ("bogus")), []) :=
  dispatch_unknown_command defaultOracle turtl0 Value.null ("bogus") (by decide)

/-- Claim C8: `dispatch` on `"ping"` succeeds for every coordinator state and
every payload, returning exactly the JSON string `"pong"` (and attempting no
mutation). -/
theorem dispatch_ping_pong (o : Oracle) (t : Turtl) (data : Value) :
    dispatch o t ("ping") data = (DOutcome.ok (Value.str ("pong")), []) := rfl

/-- Counterexample to claim C1: in the envelope `["abc"]` the request id is
extractable (position 0 decodes to the string `"abc"`), yet the failure to
extract a command at position 1 — a failure after the request id is known —
is not converted into an error response: `process` attempts no response and
itself returns an error. -/
theorem process_missing_cmd_cex :
    jgetString [("0")] (Value.arr [Value.str ("abc")]) = Except.ok ("abc") ∧
    process defaultOracle turtl0 (some (Value.arr [Value.str ("abc")])) =
      (POutcome.err (TError.MissingField (("missing cmd (1)"))), []) :=
  ⟨rfl, rfl⟩

/-- Claim C1 (amended): once both the request id (position 0) and the command
(position 1) are extracted — and no lock is poisoned — every failure is
converted into exactly one response attempt addressed to that request id and
`process` returns `Ok`, response-transmission failures included; a failure to
extract the command, although the request id is already known, instead makes
`process` return an error with no response attempted. -/
theorem process_responds_exactly_once :
    (∀ (o : Oracle) (t : Turtl) (data : Value) (mid cmd : String),
      jgetString [("0")] data = Except.ok mid →
      jgetString [("1")] data = Except.ok cmd →
      t.profilePoisoned = false → t.searchPoisoned = false →
      (process o t (some data)).1 = POutcome.ok ∧
      ((∃ v, (process o t (some data)).2 = [Attempt.success mid v]) ∨
       (∃ e, (process o t (some data)).2 = [Attempt.failure mid e]))) ∧
    (∀ (o : Oracle) (t : Turtl) (data : Value) (mid : String) (e1 : JErr),
      jgetString [("0")] data = Except.ok mid →
      jgetString [("1")] data = Except.error e1 →
      process o t (some data) = (POutcome.err (TError.MissingField (("missing cmd (1)"))), [])) := by
  constructor
  · intro o t data mid cmd h0 h1 hp hs
    have hnp := dispatch_no_panic o t cmd data hp hs
    cases hd : dispatch o t cmd data with
    | mk out effs =>
      cases out with
      | ok v =>
          cases hms : o.msgSuccess mid v with
          | ok u =>
              exact ⟨by simp [process, h0, h1, hd, hms], Or.inl ⟨v, by simp [process, h0, h1, hd, hms]⟩⟩
          | error e =>
              exact ⟨by simp [process, h0, h1, hd, hms], Or.inl ⟨v, by simp [process, h0, h1, hd, hms]⟩⟩
      | err e =>
          cases hme : o.msgError mid e with
          | ok u =>
              exact ⟨by simp [process, h0, h1, hd, hme], Or.inr ⟨e, by simp [process, h0, h1, hd, hme]⟩⟩
          | error e2 =>
              exact ⟨by simp [process, h0, h1, hd, hme], Or.inr ⟨e, by simp [process, h0, h1, hd, hme]⟩⟩
      | panicked =>
          rw [hd] at hnp
          exact absurd rfl hnp
  · intro o t data mid e1 h0 h1
    simp [process, h0, h1]

/-- Witness for C1 (amended): on the well-formed envelope `["abc", "ping"]`
with healthy locks, `process` returns `Ok`. -/
theorem process_responds_exactly_once_witness :
    (process defaultOracle turtl0 (some (Value.arr [Value.str ("abc"), Value.str ("ping")]))).1 =
      POutcome.ok :=
  (process_responds_exactly_once.1 defaultOracle turtl0
    (Value.arr [Value.str ("abc"), Value.str ("ping")]) ("abc") ("ping") rfl rfl rfl rfl).1

/-- Counterexample to claim C2: a legal interleaving of `stop` with the main
loop in which the consumer, sitting at the top of the loop, re-checks the run
flag only after `stop` has both cleared the flag and pushed the no-op job
(job `0`): the loop exits with the no-op job still in the queue and
`executed = []`, so a job enqueued before and including the no-op job is not
executed. -/
theorem mainloop_stop_skips_noop_cex :
    MainLoop.Steps ⟨[], true, MainLoop.Phase.loopTop, []⟩
      ⟨[0], false, MainLoop.Phase.done, []⟩ ∧
    (⟨[0], false, MainLoop.Phase.done, []⟩ : MainLoop.LState).executed = [] :=
  ⟨MainLoop.Steps.tail
    (MainLoop.Steps.tail
      (MainLoop.Steps.tail (MainLoop.Steps.refl _) (MainLoop.Step.stopSet _))
      (MainLoop.Step.push _ 0))
    (MainLoop.Step.checkFalse _ rfl rfl),
   rfl⟩

/-- Claim C2 (amended): after `request_stop` clears the run flag, the main
loop terminates after executing at most one further job — the job whose pop
was already committed by a flag check that happened before the stop (the
no-op push only guarantees a blocked pop wakes up) — and after loop exit no
further job is ever executed, jobs pushed after exit included. -/
theorem mainloop_stop_drains_bounded :
    (∀ s t : MainLoop.LState, MainLoop.Steps s t → s.phase = MainLoop.Phase.done →
      t.executed = s.executed) ∧
    (∀ s t : MainLoop.LState, MainLoop.Steps s t → s.run = false →
      t.executed.length ≤ s.executed.length + 1) := by
  constructor
  · intro s t h hd
    exact (MainLoop.steps_done h hd).2
  · intro s t h hr
    have hb := MainLoop.steps_budget h hr
    have h1 := MainLoop.budget_le_one s.phase
    omega

/-- Witness for C2 (amended): from the stopped loop-top state with the no-op
job queued, one flag check reaches `done`; the executed list stays within the
one-job bound, and from the `done` state nothing more is executed. -/
theorem mainloop_stop_drains_bounded_witness :
    (⟨[0], false, MainLoop.Phase.done, []⟩ : MainLoop.LState).executed =
      (⟨[0], false, MainLoop.Phase.done, []⟩ : MainLoop.LState).executed ∧
    (⟨[0], false, MainLoop.Phase.done, []⟩ : MainLoop.LState).executed.length ≤
      (⟨[0], false, MainLoop.Phase.loopTop, []⟩ : MainLoop.LState).executed.length + 1 :=
  ⟨mainloop_stop_drains_bounded.1 _ _ (MainLoop.Steps.refl _) rfl,
   mainloop_stop_drains_bounded.2
     ⟨[0], false, MainLoop.Phase.loopTop, []⟩ _
     (MainLoop.Steps.tail (MainLoop.Steps.refl _) (MainLoop.Step.checkFalse _ rfl rfl))
     rfl⟩

/-- Counterexample to claim C3: the decoded type `File` is not one of the
five direct-sync model types, yet `profile:sync:model` with action `add` does
not reject the message with an error — it succeeds with `Null`. -/
theorem sync_model_file_not_rejected_cex :
    jgetSyncType [("3")]
      (Value.arr [Value.str ("m"), Value.str ("profile:sync:model"),
        Value.str ("add"), Value.str ("file"), Value.null]) = Except.ok SyncType.File ∧
    (SyncType.File ≠ SyncType.User ∧ SyncType.File ≠ SyncType.Space ∧
     SyncType.File ≠ SyncType.Board ∧ SyncType.File ≠ SyncType.Note ∧
     SyncType.File ≠ SyncType.Invite) ∧
    dispatch defaultOracle turtl0 ("profile:sync:model")
      (Value.arr [Value.str ("m"), Value.str ("profile:sync:model"),
        Value.str ("add"), Value.str ("file"), Value.null]) =
      (DOutcome.ok Value.null, []) :=
  ⟨rfl, by decide, rfl⟩

/-- Claim C3 (amended): for every `profile:sync:model` message whose decoded
type is neither one of the five direct-sync model types nor `File`, `dispatch`
rejects the message with an error before any save or delete mutation is
attempted; for actions `Add`/`Edit` — and for `Delete` whenever the nested
`id` field of position 4 decodes — that error is the decode-class `BadValue`
naming both the command and the type. (`File` is the exception the claim
missed: it is accepted as a mutation-free no-op.) -/
theorem sync_model_unsupported_type_rejected
    (o : Oracle) (t : Turtl) (data : Value) (action : SyncAction) (ty : SyncType)
    (hact : jgetSyncAction [("2")] data = Except.ok action)
    (hty : jgetSyncType [("3")] data = Except.ok ty)
    (h1 : ty ≠ SyncType.User) (h2 : ty ≠ SyncType.Space) (h3 : ty ≠ SyncType.Board)
    (h4 : ty ≠ SyncType.Note) (h5 : ty ≠ SyncType.Invite) (h6 : ty ≠ SyncType.File) :
    ((∃ e, (dispatch o t ("profile:sync:model") data).1 = DOutcome.err e) ∧
     (dispatch o t ("profile:sync:model") data).2 = [] ∧
     (action ≠ SyncAction.Delete →
       (dispatch o t ("profile:sync:model") data).1 =
         DOutcome.err (TError.BadValue
           ((("dispatch: profile:sync:model -- cannot direct sync an item of type ")) ++ syncTypeName ty))) ∧
     (∀ id, jgetString [("4"), ("id")] data = Except.ok id →
       (dispatch o t ("profile:sync:model") data).1 =
         DOutcome.err (TError.BadValue
           ((("dispatch: profile:sync:model -- cannot direct sync an item of type ")) ++ syncTypeName ty)))) := by
  have hfi : ty = SyncType.FileIncoming := by
    cases ty <;> simp_all
  subst hfi
  have hdisp : dispatch o t ("profile:sync:model") data = liftE (handleSyncModel o data) := rfl
  rw [hdisp]
  unfold handleSyncModel
  rw [hact, hty]
  cases action with
  | Add =>
      refine ⟨⟨_, rfl⟩, rfl, fun _ => rfl, fun id hid => rfl⟩
  | Edit =>
      refine ⟨⟨_, rfl⟩, rfl, fun _ => rfl, fun id hid => rfl⟩
  | Delete =>
      cases hid : jgetString [("4"), ("id")] data with
      | ok id =>
          simp only [hid]
          exact ⟨⟨_, rfl⟩, rfl, fun hne => absurd rfl hne, fun id2 hid2 => rfl⟩
      | error e =>
          simp only [hid]
          exact ⟨⟨_, rfl⟩, rfl, fun hne => absurd rfl hne,
            fun id2 hid2 => by simp at hid2⟩

/-- Witness for C3 (amended): an `add` of the extra type decodes to
`FileIncoming` and is rejected by the `BadValue` error naming command and
type, with no mutation attempted. -/
theorem sync_model_unsupported_type_rejected_witness :
    (dispatch defaultOracle turtl0 ("profile:sync:model")
      (Value.arr [Value.str ("m"), Value.str ("profile:sync:model"),
        Value.str ("add"), Value.str ("file:incoming"), Value.null])).1 =
      DOutcome.err (TError.BadValue
        ((("dispatch: profile:sync:model -- cannot direct sync an item of type ")) ++ syncTypeName SyncType.FileIncoming)) ∧
    (dispatch defaultOracle turtl0 ("profile:sync:model")
      (Value.arr [Value.str ("m"), Value.str ("profile:sync:model"),
        Value.str ("add"), Value.str ("file:incoming"), Value.null])).2 = [] :=
  ⟨(sync_model_unsupported_type_rejected defaultOracle turtl0
      (Value.arr [Value.str ("m"), Value.str ("profile:sync:model"),
        Value.str ("add"), Value.str ("file:incoming"), Value.null]) SyncAction.Add
      SyncType.FileIncoming rfl rfl (by decide) (by decide) (by decide) (by decide)
      (by decide) (by decide)).2.2.1 (by decide),
   (sync_model_unsupported_type_rejected defaultOracle turtl0
      (Value.arr [Value.str ("m"), Value.str ("profile:sync:model"),
        Value.str ("add"), Value.str ("file:incoming"), Value.null]) SyncAction.Add
      SyncType.FileIncoming rfl rfl (by decide) (by decide) (by decide) (by decide)
      (by decide) (by decide)).2.1⟩

/-- Counterexample to claim C4: with the search subsystem uninitialized
(`turtl0.searchInit = false`), `profile:load` does not fail with a missing
dependency — it succeeds and returns the profile snapshot. -/
theorem profile_load_without_search_cex :
    turtl0.searchInit = false ∧
    dispatch defaultOracle turtl0 ("profile:load") Value.null =
      (DOutcome.ok (Value.obj [(("spaces"), Value.arr []), (("boards"), Value.arr [])]), []) :=
  ⟨rfl, rfl⟩

/-- Claim C4 (amended): `profile:find-notes` and `profile:get-tags` fail with
the missing-dependency error (`TError::MissingField` naming the absent
`search` object) when invoked while the search subsystem is uninitialized and
their positional arguments decode; `profile:load`, however, never consults
the search subsystem and succeeds regardless of its initialization. -/
theorem search_queries_missing_dependency
    (o : Oracle) (t : Turtl) (data : Value)
    (hinit : t.searchInit = false) (hsp : t.searchPoisoned = false) :
    (∀ qraw qry, jget [("2")] data = Except.ok qraw → o.decodeQuery qraw = Except.ok qry →
      dispatch o t ("profile:find-notes") data =
        (DOutcome.err (TError.MissingField
          (("dispatch: profile:find-notes -- turtl is missing `search` object"))), [])) ∧
    (∀ spaceId boards limit, jgetString [("2")] data = Except.ok spaceId →
      jgetStringList [("3")] data = Except.ok boards →
      jgetInt [("4")] data = Except.ok limit →
      dispatch o t ("profile:get-tags") data =
        (DOutcome.err (TError.MissingField
          (("dispatch: profile:get-tags -- turtl is missing `search` object"))), [])) ∧
    (t.profilePoisoned = false →
      dispatch o t ("profile:load") data =
        (DOutcome.ok (Value.obj [(("spaces"), t.profileSpaces), (("boards"), t.profileBoards)]), [])) := by
  refine ⟨?_, ?_, ?_⟩
  · intro qraw qry hq hdq
    have hd : dispatch o t ("profile:find-notes") data = handleFindNotes o t data := rfl
    rw [hd]
    unfold handleFindNotes
    simp [hq, hdq, hsp, hinit]
  · intro spaceId boards limit h2 h3 h4
    have hd : dispatch o t ("profile:get-tags") data = handleGetTags o t data := rfl
    rw [hd]
    unfold handleGetTags
    simp [h2, h3, h4, hsp, hinit]
  · intro hpp
    have hd : dispatch o t ("profile:load") data = handleProfileLoad t := rfl
    rw [hd]
    unfold handleProfileLoad
    simp [hpp]

/-- Witness for C4 (amended): on concrete envelopes with decodable arguments
and a coordinator whose search handle is `None`, both queries return the
missing-dependency error and `profile:load` succeeds. -/
theorem search_queries_missing_dependency_witness :
    dispatch defaultOracle turtl0 ("profile:find-notes")
      (Value.arr [Value.str ("m"), Value.str ("c"), Value.obj []]) =
      (DOutcome.err (TError.MissingField
        (("dispatch: profile:find-notes -- turtl is missing `search` object"))), []) ∧
    dispatch defaultOracle turtl0 ("profile:get-tags")
      (Value.arr [Value.str ("m"), Value.str ("c"), Value.str ("s1"), Value.arr [], Value.num 5]) =
      (DOutcome.err (TError.MissingField
        (("dispatch: profile:get-tags -- turtl is missing `search` object"))), []) ∧
    dispatch defaultOracle turtl0 ("profile:load") Value.null =
      (DOutcome.ok (Value.obj [(("spaces"), Value.arr []), (("boards"), Value.arr [])]), []) :=
  ⟨(search_queries_missing_dependency defaultOracle turtl0
      (Value.arr [Value.str ("m"), Value.str ("c"), Value.obj []]) rfl rfl).1
      (Value.obj []) (Value.obj []) rfl rfl,
   (search_queries_missing_dependency defaultOracle turtl0
      (Value.arr [Value.str ("m"), Value.str ("c"), Value.str ("s1"), Value.arr [], Value.num 5])
      rfl rfl).2.1 ("s1") [] 5 rfl rfl rfl,
   (search_queries_missing_dependency defaultOracle turtl0 Value.null rfl rfl).2.2 rfl⟩

/-- Counterexample to claim C5: with the profile lock poisoned,
`profile:load` neither surfaces an error result nor ignores the failure — the
`.unwrap()` on the lock panics (outcome `panicked`, which is not `err e` for
any `e`). -/
theorem poisoned_lock_not_an_error_cex :
    turtlPoisoned.profilePoisoned = true ∧
    dispatch defaultOracle turtlPoisoned ("profile:load") Value.null =
      (DOutcome.panicked, []) :=
  ⟨rfl, rfl⟩

/-- Claim C5 (amended): a lock acquisition that fails because the lock is
poisoned makes the operation panic (the source unwraps the lock result) — it
is not silently ignored, but it is a panic, not an error result of the
operation. -/
theorem poisoned_lock_panics (o : Oracle) (t : Turtl) (data : Value) :
    (t.profilePoisoned = true →
      dispatch o t ("profile:load") data = (DOutcome.panicked, [])) ∧
    (t.searchPoisoned = true →
      ∀ qraw qry, jget [("2")] data = Except.ok qraw → o.decodeQuery qraw = Except.ok qry →
        dispatch o t ("profile:find-notes") data = (DOutcome.panicked, [])) ∧
    (t.searchPoisoned = true →
      ∀ spaceId boards limit, jgetString [("2")] data = Except.ok spaceId →
        jgetStringList [("3")] data = Except.ok boards →
        jgetInt [("4")] data = Except.ok limit →
        dispatch o t ("profile:get-tags") data = (DOutcome.panicked, [])) := by
  refine ⟨?_, ?_, ?_⟩
  · intro hpp
    have hd : dispatch o t ("profile:load") data = handleProfileLoad t := rfl
    rw [hd]
    unfold handleProfileLoad
    simp [hpp]
  · intro hsp qraw qry hq hdq
    have hd : dispatch o t ("profile:find-notes") data = handleFindNotes o t data := rfl
    rw [hd]
    unfold handleFindNotes
    simp [hq, hdq, hsp]
  · intro hsp spaceId boards limit h2 h3 h4
    have hd : dispatch o t ("profile:get-tags") data = handleGetTags o t data := rfl
    rw [hd]
    unfold handleGetTags
    simp [h2, h3, h4, hsp]

/-- Witness for C5 (amended): with a poisoned profile lock `profile:load`
panics, and with a poisoned search lock `profile:find-notes` and
`profile:get-tags` panic on decodable arguments. -/
theorem poisoned_lock_panics_witness :
    dispatch defaultOracle turtlPoisoned ("profile:load") Value.null =
      (DOutcome.panicked, []) ∧
    dispatch defaultOracle turtlSearchPoisoned ("profile:find-notes")
      (Value.arr [Value.str ("m"), Value.str ("c"), Value.obj []]) =
      (DOutcome.panicked, []) ∧
    dispatch defaultOracle turtlSearchPoisoned ("profile:get-tags")
      (Value.arr [Value.str ("m"), Value.str ("c"), Value.str ("s1"), Value.arr [], Value.num 5]) =
      (DOutcome.panicked, []) :=
  ⟨(poisoned_lock_panics defaultOracle turtlPoisoned Value.null).1 rfl,
   (poisoned_lock_panics defaultOracle turtlSearchPoisoned
      (Value.arr [Value.str ("m"), Value.str ("c"), Value.obj []])).2.1 rfl
      (Value.obj []) (Value.obj []) rfl rfl,
   (poisoned_lock_panics defaultOracle turtlSearchPoisoned
      (Value.arr [Value.str ("m"), Value.str ("c"), Value.str ("s1"), Value.arr [], Value.num 5])).2.2
      rfl ("s1") [] 5 rfl rfl rfl⟩

/-- Claim C9: for a `profile:sync:model` message whose decoded type is
`File`: with action `Add`/`Edit` the result is JSON `null` (not the empty
object, not a model result) and `save_model` is never invoked; with action
`Delete` — given only that the nested `id` field of position 4 decodes — the
result is the empty object and `delete_model` is never invoked; in both cases
the mutation log is empty. -/
theorem sync_model_file_is_noop
    (o : Oracle) (t : Turtl) (data : Value) (action : SyncAction)
    (hact : jgetSyncAction [("2")] data = Except.ok action)
    (hty : jgetSyncType [("3")] data = Except.ok SyncType.File) :
    (action ≠ SyncAction.Delete →
      dispatch o t ("profile:sync:model") data = (DOutcome.ok Value.null, [])) ∧
    (∀ id, action = SyncAction.Delete → jgetString [("4"), ("id")] data = Except.ok id →
      dispatch o t ("profile:sync:model") data = (DOutcome.ok jediObj, [])) := by
  have hdisp : dispatch o t ("profile:sync:model") data = liftE (handleSyncModel o data) := rfl
  rw [hdisp]
  unfold handleSyncModel
  rw [hact, hty]
  cases action with
  | Add => exact ⟨fun _ => rfl, fun id hde _ => by cases hde⟩
  | Edit => exact ⟨fun _ => rfl, fun id hde _ => by cases hde⟩
  | Delete =>
      refine ⟨fun hne => absurd rfl hne, fun id _ hid => ?_⟩
      simp only [hid]
      rfl

/-- Witness for C9: a concrete `add`-of-`file` envelope yields `null` with an
empty mutation log, and a concrete `delete`-of-`file` envelope with an `id`
field yields the empty object with an empty mutation log. -/
theorem sync_model_file_is_noop_witness :
    dispatch defaultOracle turtl0 ("profile:sync:model")
      (Value.arr [Value.str ("m"), Value.str ("c"), Value.str ("add"),
        Value.str ("file"), Value.null]) = (DOutcome.ok Value.null, []) ∧
    dispatch defaultOracle turtl0 ("profile:sync:model")
      (Value.arr [Value.str ("m"), Value.str ("c"), Value.str ("delete"),
        Value.str ("file"), Value.obj [(("id"), Value.str ("abc"))]]) =
      (DOutcome.ok jediObj, []) :=
  ⟨(sync_model_file_is_noop defaultOracle turtl0
      (Value.arr [Value.str ("m"), Value.str ("c"), Value.str ("add"),
        Value.str ("file"), Value.null]) SyncAction.Add rfl rfl).1 (by decide),
   (sync_model_file_is_noop defaultOracle turtl0
      (Value.arr [Value.str ("m"), Value.str ("c"), Value.str ("delete"),
        Value.str ("file"), Value.obj [(("id"), Value.str ("abc"))]]) SyncAction.Delete
      rfl rfl).2 ("abc") rfl rfl⟩

/-- Claim C10: `process_config` is total — it yields a `Config` for every
parse outcome, an unparseable input behaving as the empty object — and each
field independently falls back to its default when its own lookup fails:
`data_folder` to `/tmp/turtl.sql`, the schema to the empty object, and the
api endpoint first to the stored config value and failing that to
`https://api.turtlapp.com/v2`. -/
theorem process_config_field_fallbacks :
    (∀ (e : String), process_config (Except.ok e) none =
      { data_folder := ("/tmp/turtl.sql"), dumpy_schema := jediObj, api_endpoint := e }) ∧
    (∀ (err : TError), process_config (Except.error err) none =
      { data_folder := ("/tmp/turtl.sql"), dumpy_schema := jediObj,
        api_endpoint := ("https://api.turtlapp.com/v2") }) ∧
    (∀ stored v s, jgetString [("data_folder")] v = Except.ok s →
      (process_config stored (some v)).data_folder = s) ∧
    (∀ stored v e, jgetString [("data_folder")] v = Except.error e →
      (process_config stored (some v)).data_folder = ("/tmp/turtl.sql")) ∧
    (∀ stored v w, jget [("schema")] v = Except.ok w →
      (process_config stored (some v)).dumpy_schema = w) ∧
    (∀ stored v e, jget [("schema")] v = Except.error e →
      (process_config stored (some v)).dumpy_schema = jediObj) ∧
    (∀ stored v s, jgetString [("api"), ("endpoint")] v = Except.ok s →
      (process_config stored (some v)).api_endpoint = s) ∧
    (∀ v e ep, jgetString [("api"), ("endpoint")] v = Except.error e →
      (process_config (Except.ok ep) (some v)).api_endpoint = ep) ∧
    (∀ v e err, jgetString [("api"), ("endpoint")] v = Except.error e →
      (process_config (Except.error err) (some v)).api_endpoint =
        ("https://api.turtlapp.com/v2")) := by
  refine ⟨fun e => rfl, fun err => rfl, ?_, ?_, ?_, ?_, ?_, ?_, ?_⟩
  all_goals intros
  all_goals simp [process_config, *]

/-- Witness for C10: on the parsed object
`{data_folder: "d", api: {endpoint: "e"}}` the present fields win and the
absent schema falls back; on an unparseable input all defaults apply with the
stored endpoint used. -/
theorem process_config_field_fallbacks_witness :
    (process_config (Except.error (TError.Msg ("no stored")))
      (some (Value.obj [(("data_folder"), Value.str ("d")),
        (("api"), Value.obj [(("endpoint"), Value.str ("e"))])]))).data_folder = ("d") ∧
    (process_config (Except.error (TError.Msg ("no stored")))
      (some (Value.obj [(("data_folder"), Value.str ("d")),
        (("api"), Value.obj [(("endpoint"), Value.str ("e"))])]))).dumpy_schema = jediObj ∧
    (process_config (Except.error (TError.Msg ("no stored")))
      (some (Value.obj [(("data_folder"), Value.str ("d")),
        (("api"), Value.obj [(("endpoint"), Value.str ("e"))])]))).api_endpoint = ("e") ∧
    process_config (Except.ok ("stored")) none =
      { data_folder := ("/tmp/turtl.sql"), dumpy_schema := jediObj,
        api_endpoint := ("stored") } :=
  ⟨process_config_field_fallbacks.2.2.1 (Except.error (TError.Msg ("no stored"))) _ ("d") rfl,
   process_config_field_fallbacks.2.2.2.2.2.1 (Except.error (TError.Msg ("no stored"))) _
     JErr.notFound rfl,
   process_config_field_fallbacks.2.2.2.2.2.2.1 (Except.error (TError.Msg ("no stored"))) _
     ("e") rfl,
   process_config_field_fallbacks.1 ("stored")⟩
